import Mathlib

/- Shallow embedding of the orbital-mechanics engine in src/orbital_simulator.py.
   Machine floats are modelled by exact real arithmetic; numpy 3-vectors by
   functions Fin 3 → ℝ; Python lists of bodies by functions Fin n → CelestialBody;
   raised exceptions by Except. -/

noncomputable section

namespace Solar

/-- Gravitational constant, `G = 6.67430e-11` in the source. -/
def G : ℝ := 6.67430e-11

/-- numpy 3-vectors `[x, y, z]`. -/
abbrev Vec3 := Fin 3 → ℝ

/-- `np.linalg.norm` of a 3-vector. -/
def norm3 (v : Vec3) : ℝ := Real.sqrt (v 0 ^ 2 + v 1 ^ 2 + v 2 ^ 2)

/-- `np.dot` of two 3-vectors. -/
def dot3 (v w : Vec3) : ℝ := v 0 * w 0 + v 1 * w 1 + v 2 * w 2

/-- Vector literal helper, `v3 a b c = [a, b, c]`. -/
def v3 (a b c : ℝ) : Vec3 := ![a, b, c]

@[simp] lemma v3_apply_zero (a b c : ℝ) : v3 a b c 0 = a := rfl

@[simp] lemma v3_apply_one (a b c : ℝ) : v3 a b c 1 = b := rfl

@[simp] lemma v3_apply_two (a b c : ℝ) : v3 a b c 2 = c := rfl

lemma norm3_v3 (a b c : ℝ) : norm3 (v3 a b c) = Real.sqrt (a ^ 2 + b ^ 2 + c ^ 2) := rfl

/-- The `CelestialBody` dataclass (fields after `__post_init__` has run:
    position and velocity are always 3-vectors). -/
structure CelestialBody where
  name : String
  mass : ℝ
  position : Vec3
  velocity : Vec3
  radius : ℝ
  color : String
  is_3d : Bool

instance : DecidableEq CelestialBody := fun a b => Classical.propDecidable (a = b)

/-- Zero-extension of a python list to a 3-vector: entries beyond the list are `0.0`,
    mirroring `np.append(v, 0.0)` for length-2 inputs. -/
def toVec3 (l : List ℝ) : Vec3 := fun i => l.getD i.1 0

/-- `CelestialBody.__post_init__`: validates the dimensionality of `position` and
    `velocity` (each must have length 2 or 3), zero-extends length-2 vectors, and
    overwrites `is_3d` from the position branch (`False` for a 2-component
    position, `True` for a 3-component one).  The mass is never validated.
    A raised `ValueError` is modelled as `Except.error`. -/
def CelestialBody.post_init (nm : String) (mass : ℝ) (position velocity : List ℝ)
    (radius : ℝ) (color : String) (is3dArg : Bool) : Except String CelestialBody :=
  if position.length = 2 then
    (if velocity.length = 2 ∨ velocity.length = 3 then
      Except.ok { name := nm, mass := mass, position := toVec3 position,
                  velocity := toVec3 velocity, radius := radius, color := color,
                  is_3d := false }
     else Except.error ("Velocity must be 2D [vx,vy] or 3D [vx,vy,vz]"))
  else if position.length = 3 then
    (if velocity.length = 2 ∨ velocity.length = 3 then
      Except.ok { name := nm, mass := mass, position := toVec3 position,
                  velocity := toVec3 velocity, radius := radius, color := color,
                  is_3d := true }
     else Except.error ("Velocity must be 2D [vx,vy] or 3D [vx,vy,vz]"))
  else Except.error ("Position must be 2D [x,y] or 3D [x,y,z]")

/-- `PhysicsEngine.gravitational_force`: force on `body1` due to `body2`;
    zero whenever `r < 1e6`, else `G*m1*m2/r^2` along the unit vector from
    `body1` to `body2`. -/
def gravitational_force (body1 body2 : CelestialBody) : Vec3 :=
  if norm3 (body2.position - body1.position) < 1e6 then 0
  else (G * body1.mass * body2.mass / norm3 (body2.position - body1.position) ^ 2) •
    ((norm3 (body2.position - body1.position))⁻¹ • (body2.position - body1.position))

/-- `PhysicsEngine.calculate_forces`: net force on `body` from every other body
    (the loop skips entries `==`-equal to `body`). -/
def calculate_forces {n : ℕ} (bodies : Fin n → CelestialBody) (body : CelestialBody) :
    Vec3 :=
  ∑ j, if bodies j ≠ body then gravitational_force body (bodies j) else 0

/-- `PhysicsEngine.acceleration`: `a = F / m` (no zero-mass check in the source). -/
def acceleration {n : ℕ} (bodies : Fin n → CelestialBody) (body : CelestialBody) :
    Vec3 :=
  body.mass⁻¹ • calculate_forces bodies body

/-- The `PhysicsEngine` class: the body collection plus its own time field. -/
structure PhysicsEngine (n : ℕ) where
  bodies : Fin n → CelestialBody
  time : ℝ

/-- The kick loop: `body.velocity += accelerations[i] * dt`, accelerations taken
    from the pre-step snapshot. -/
def postKick {n : ℕ} (dt : ℝ) (bs : Fin n → CelestialBody) : Fin n → CelestialBody :=
  fun i => { bs i with velocity := (bs i).velocity + dt • acceleration bs (bs i) }

/-- The drift loop after the kick: `body.position += body.velocity * dt` using the
    already-kicked velocity. -/
def postDrift {n : ℕ} (dt : ℝ) (bs : Fin n → CelestialBody) : Fin n → CelestialBody :=
  fun i => { postKick dt bs i with
             position := (postKick dt bs i).position + dt • (postKick dt bs i).velocity }

/-- `PhysicsEngine.update_positions_velocities`: two-pass predictor-corrector.
    Accelerations `a0` from the pre-step snapshot, kick, drift, accelerations `a1`
    from the drifted snapshot, then the stored velocity is rebuilt from the
    pre-step velocity with the trapezoidal average `(a0+a1)/2`; finally
    `self.time += dt`. -/
def update_positions_velocities {n : ℕ} (dt : ℝ) (e : PhysicsEngine n) :
    PhysicsEngine n :=
  { bodies := fun i =>
      { postDrift dt e.bodies i with
        velocity := (e.bodies i).velocity
          + dt • ((2 : ℝ)⁻¹ • (acceleration e.bodies (e.bodies i)
              + acceleration (postDrift dt e.bodies) (postDrift dt e.bodies i))) },
    time := e.time + dt }

/-- The per-other-body contribution of the potential-energy loop in
    `PhysicsEngine.get_orbital_energy`: `-G*m*mOther/r` when `r > 1e6`, else `0`. -/
def potentialTerm (body other : CelestialBody) : ℝ :=
  if norm3 (body.position - other.position) > 1e6 then
    -(G * body.mass * other.mass / norm3 (body.position - other.position))
  else 0

/-- `PhysicsEngine.get_orbital_energy`: kinetic energy plus the summed potential
    terms over every other body. -/
def get_orbital_energy {n : ℕ} (bodies : Fin n → CelestialBody)
    (body : CelestialBody) : ℝ :=
  0.5 * body.mass * dot3 body.velocity body.velocity
    + ∑ j, if bodies j ≠ body then potentialTerm body (bodies j) else 0

/-- `PhysicsEngine.get_angular_momentum`: `m * (position × velocity)`. -/
def get_angular_momentum (body : CelestialBody) : Vec3 :=
  body.mass • crossVec3 body.position body.velocity
where
  crossVec3 (p v : Vec3) : Vec3 :=
    v3 (p 1 * v 2 - p 2 * v 1) (p 2 * v 0 - p 0 * v 2) (p 0 * v 1 - p 1 * v 0)

/-- Total linear momentum `Σ mᵢ vᵢ` of a body collection. -/
def momentum {n : ℕ} (bs : Fin n → CelestialBody) : Vec3 :=
  ∑ i, (bs i).mass • (bs i).velocity

/-- The `OrbitalSimulator` class: the engine, the fixed step `dt`, the
    simulator's own time cursor, and the name-keyed trajectory dictionary. -/
structure OrbitalSimulator (n : ℕ) where
  engine : PhysicsEngine n
  dt : ℝ
  time : ℝ
  trajectories : String → List Vec3

/-- `OrbitalSimulator.__init__`: both time cursors start at `0.0` and every
    trajectory list is empty. -/
def mkSimulator {n : ℕ} (bodies : Fin n → CelestialBody) (dt : ℝ) :
    OrbitalSimulator n :=
  { engine := { bodies := bodies, time := 0 }, dt := dt, time := 0,
    trajectories := fun _ => [] }

/-- `OrbitalSimulator.step`: append each body's pre-step position to the
    trajectory list under its name, update physics with `dt`, advance the
    simulator clock by `dt`. -/
def OrbitalSimulator.step {n : ℕ} (s : OrbitalSimulator n) : OrbitalSimulator n :=
  { engine := update_positions_velocities s.dt s.engine,
    dt := s.dt,
    time := s.time + s.dt,
    trajectories := fun nm => s.trajectories nm ++
      (((List.ofFn s.engine.bodies).filter (fun b => b.name = nm)).map
        (fun b => b.position)) }

/-- Python `int()` truncation toward zero on a real. -/
def pyInt (x : ℝ) : ℤ := if 0 ≤ x then ⌊x⌋ else ⌈x⌉

/-- The loop of `run_simulation`: each iteration runs `self.step()` and then
    evaluates the progress check `step % (total_steps // 10) == 0`, which
    raises `ZeroDivisionError` whenever `total_steps // 10 == 0`. -/
def runLoop {n : ℕ} (total : ℕ) :
    ℕ → OrbitalSimulator n → Except String (OrbitalSimulator n)
  | 0, s => Except.ok s
  | k + 1, s =>
    let s' := s.step
    if total / 10 = 0 then Except.error ("ZeroDivisionError: integer modulo by zero")
    else runLoop total k s'

/-- `OrbitalSimulator.run_simulation`: `total_steps = int(duration / self.dt)`
    iterations of the loop above. -/
def run_simulation {n : ℕ} (s : OrbitalSimulator n) (duration : ℝ) :
    Except String (OrbitalSimulator n) :=
  runLoop (pyInt (duration / s.dt)).toNat (pyInt (duration / s.dt)).toNat s

/-- Concrete bodies used to instantiate the force-floor claim: 500 km apart. -/
def bodyNearA : CelestialBody := ⟨"nearA", 1, v3 0 0 0, v3 0 0 0, 0, "blue", true⟩

def bodyNearB : CelestialBody := ⟨"nearB", 1, v3 (5e5) 0 0, v3 0 0 0, 0, "red", true⟩

/-- Concrete bodies exactly at the boundary distance `1e6` m. -/
def boundaryA : CelestialBody := ⟨"bA", 1, v3 0 0 0, v3 0 0 0, 0, "red", true⟩

def boundaryB : CelestialBody := ⟨"bB", 1, v3 (1e6) 0 0, v3 0 0 0, 0, "blue", true⟩

/-- Concrete bodies at distance `2e6` m, above the floor. -/
def farA : CelestialBody := ⟨"farA", 1, v3 0 0 0, v3 0 0 0, 0, "red", true⟩

def farB : CelestialBody := ⟨"farB", 1, v3 (2e6) 0 0, v3 0 0 0, 0, "blue", true⟩

/-- Concrete two-body system for the momentum invariant. -/
def momA : CelestialBody := ⟨"momA", 1, v3 0 0 0, v3 0 0 0, 0, "blue", true⟩

def momB : CelestialBody := ⟨"momB", 2, v3 (2e6) 0 0, v3 0 1 0, 0, "red", true⟩

def momEngine : PhysicsEngine 2 := ⟨![momA, momB], 0⟩

/-- Concrete system containing a zero-mass body (the claimed fatal input). -/
def zeroMassBody : CelestialBody := ⟨"Z", 0, v3 0 0 0, v3 0 0 0, 0, "gray", true⟩

def heavyBody : CelestialBody := ⟨"W", 5e24, v3 (2e6) 0 0, v3 0 0 0, 1, "blue", true⟩

def zBodies : Fin 2 → CelestialBody := ![zeroMassBody, heavyBody]

/- ------------------------------------------------------------------ -/
/- Helper lemmas shared between the claims. -/

lemma norm3_neg (v : Vec3) : norm3 (-v) = norm3 v := by
  unfold norm3
  simp [Pi.neg_apply]

lemma norm3_zero : norm3 (0 : Vec3) = 0 := by
  simp [norm3]

lemma norm3_sub_comm (a b : Vec3) : norm3 (a - b) = norm3 (b - a) := by
  rw [show a - b = -(b - a) from (neg_sub b a).symm, norm3_neg]

/-- Newton's third law inside the model: the force on `a` due to `b` is the
    negation of the force on `b` due to `a`. -/
lemma gravitational_force_antisymm (a b : CelestialBody) :
    gravitational_force b a = - gravitational_force a b := by
  unfold gravitational_force
  rw [norm3_sub_comm a.position b.position]
  split_ifs with h
  · rw [neg_zero]
  · rw [show a.position - b.position = -(b.position - a.position) from (neg_sub _ _).symm,
        smul_neg, smul_neg, mul_right_comm G b.mass a.mass]

lemma gravitational_force_zero_left (b1 b2 : CelestialBody) (h : b1.mass = 0) :
    gravitational_force b1 b2 = 0 := by
  simp [gravitational_force, h]

lemma gravitational_force_zero_right (b1 b2 : CelestialBody) (h : b2.mass = 0) :
    gravitational_force b1 b2 = 0 := by
  simp [gravitational_force, h]

/-- The pairwise force terms of the whole collection cancel in pairs, so the
    total force over all bodies is exactly zero. -/
lemma sum_calculate_forces_eq_zero {n : ℕ} (bs : Fin n → CelestialBody) :
    ∑ i, calculate_forces bs (bs i) = 0 := by
  unfold calculate_forces
  have key : ∀ i j : Fin n,
      (if bs j ≠ bs i then gravitational_force (bs i) (bs j) else 0)
        = - (if bs i ≠ bs j then gravitational_force (bs j) (bs i) else 0) := by
    intro i j
    by_cases h : bs j = bs i
    · rw [if_neg (not_not_intro h), if_neg (not_not_intro h.symm), neg_zero]
    · rw [if_pos h, if_pos (Ne.symm h)]
      exact gravitational_force_antisymm (bs j) (bs i)
  have hself :
      (∑ i, ∑ j, if bs j ≠ bs i then gravitational_force (bs i) (bs j) else 0)
        = - ∑ i, ∑ j, (if bs j ≠ bs i then gravitational_force (bs i) (bs j) else 0) := by
    calc (∑ i, ∑ j, if bs j ≠ bs i then gravitational_force (bs i) (bs j) else 0)
        = ∑ j, ∑ i, (if bs j ≠ bs i then gravitational_force (bs i) (bs j) else 0) :=
          Finset.sum_comm
      _ = ∑ j, ∑ i, - (if bs i ≠ bs j then gravitational_force (bs j) (bs i) else 0) :=
          Finset.sum_congr rfl fun j _ => Finset.sum_congr rfl fun i _ => key i j
      _ = - ∑ j, ∑ i, (if bs i ≠ bs j then gravitational_force (bs j) (bs i) else 0) := by
          rw [← Finset.sum_neg_distrib]
          exact Finset.sum_congr rfl fun j _ => Finset.sum_neg_distrib
      _ = - ∑ i, ∑ j, (if bs j ≠ bs i then gravitational_force (bs i) (bs j) else 0) := rfl
  funext k
  have hk := congrFun hself k
  rw [Pi.neg_apply] at hk
  rw [Pi.zero_apply]
  linarith

/-- `m • (F/m) = F` once the mass is nonzero; stated with the mass value made
    explicit so it rewrites through record updates. -/
lemma mass_smul_acceleration {n : ℕ} (bs : Fin n → CelestialBody)
    (b : CelestialBody) (m : ℝ) (hbm : b.mass = m) (h : m ≠ 0) :
    m • acceleration bs b = calculate_forces bs b := by
  unfold acceleration
  rw [hbm, smul_smul, mul_inv_cancel₀ h, one_smul]

/-- Net force, acceleration, and hence each integrator phase are invariant
    under permuting the body collection. -/
lemma calculate_forces_comp_perm {n : ℕ} (σ : Equiv.Perm (Fin n))
    (bs : Fin n → CelestialBody) (b : CelestialBody) :
    calculate_forces (fun i => bs (σ i)) b = calculate_forces bs b := by
  unfold calculate_forces
  exact Equiv.sum_comp σ (fun j => if bs j ≠ b then gravitational_force b (bs j) else 0)

lemma acceleration_comp_perm {n : ℕ} (σ : Equiv.Perm (Fin n))
    (bs : Fin n → CelestialBody) (b : CelestialBody) :
    acceleration (fun i => bs (σ i)) b = acceleration bs b := by
  unfold acceleration
  rw [calculate_forces_comp_perm]

lemma postKick_comp_perm {n : ℕ} (σ : Equiv.Perm (Fin n)) (dt : ℝ)
    (bs : Fin n → CelestialBody) :
    postKick dt (fun i => bs (σ i)) = fun i => postKick dt bs (σ i) := by
  funext i
  unfold postKick
  rw [acceleration_comp_perm]

lemma postDrift_comp_perm {n : ℕ} (σ : Equiv.Perm (Fin n)) (dt : ℝ)
    (bs : Fin n → CelestialBody) :
    postDrift dt (fun i => bs (σ i)) = fun i => postDrift dt bs (σ i) := by
  funext i
  unfold postDrift
  rw [postKick_comp_perm]

/-- If every acceleration vanishes, the kick leaves every body unchanged. -/
lemma postKick_id_of_zero_acc {n : ℕ} (dt : ℝ) (bs : Fin n → CelestialBody)
    (h : ∀ i, acceleration bs (bs i) = 0) : postKick dt bs = bs := by
  funext i
  unfold postKick
  rw [h i, smul_zero, add_zero]

/-- If accelerations and velocities all vanish, the kick-drift pair leaves
    every body unchanged. -/
lemma postDrift_id_of_zero {n : ℕ} (dt : ℝ) (bs : Fin n → CelestialBody)
    (hacc : ∀ i, acceleration bs (bs i) = 0)
    (hvel : ∀ i, (bs i).velocity = 0) : postDrift dt bs = bs := by
  funext i
  unfold postDrift
  rw [postKick_id_of_zero_acc dt bs hacc, hvel i, smul_zero, add_zero]

/-- Claim C1: one integrator step computes `a0` from the pre-step snapshot,
    kicks every velocity by `a0*dt`, drifts every position by the already-kicked
    velocity times `dt`, recomputes `a1` from the drifted snapshot, and stores
    `velocity = velocity_before + 0.5*(a0+a1)*dt`, discarding the kicked
    velocity. -/
theorem C1_integrator_sequence {n : ℕ} (dt : ℝ) (e : PhysicsEngine n) (i : Fin n) :
    (update_positions_velocities dt e).bodies i
      = { e.bodies i with
          position := (e.bodies i).position
            + dt • ((e.bodies i).velocity + dt • acceleration e.bodies (e.bodies i)),
          velocity := (e.bodies i).velocity
            + dt • ((2 : ℝ)⁻¹ • (acceleration e.bodies (e.bodies i)
                + acceleration
                    (fun j => { e.bodies j with
                        velocity := (e.bodies j).velocity
                          + dt • acceleration e.bodies (e.bodies j),
                        position := (e.bodies j).position
                          + dt • ((e.bodies j).velocity
                              + dt • acceleration e.bodies (e.bodies j)) })
                    { e.bodies i with
                        velocity := (e.bodies i).velocity
                          + dt • acceleration e.bodies (e.bodies i),
                        position := (e.bodies i).position
                          + dt • ((e.bodies i).velocity
                              + dt • acceleration e.bodies (e.bodies i)) })) } := rfl

/-- Claim C2: `gravitational_force` returns the zero vector whenever
    `r = |posB - posA| < 1e6` meters, and otherwise the vector of magnitude
    `G*mA*mB/r^2` directed along the unit vector from A's position to B's. -/
theorem C2_gravitational_force_formula (b1 b2 : CelestialBody) :
    (norm3 (b2.position - b1.position) < 1e6 → gravitational_force b1 b2 = 0) ∧
    (¬ norm3 (b2.position - b1.position) < 1e6 →
      gravitational_force b1 b2
        = (G * b1.mass * b2.mass / norm3 (b2.position - b1.position) ^ 2) •
            ((norm3 (b2.position - b1.position))⁻¹ • (b2.position - b1.position))) := by
  constructor <;> intro h <;> simp [gravitational_force, h]

/-- Witness for C2: two unit-mass bodies 500 km apart are below the floor and
    get exactly zero force. -/
theorem C2_witness :
    norm3 (bodyNearB.position - bodyNearA.position) < 1e6 ∧
      gravitational_force bodyNearA bodyNearB = 0 := by
  have hd : bodyNearB.position - bodyNearA.position = v3 (5e5) 0 0 := by
    funext i
    fin_cases i <;> simp [bodyNearA, bodyNearB, v3]
  have hlt : norm3 (bodyNearB.position - bodyNearA.position) < 1e6 := by
    rw [hd, norm3_v3, Real.sqrt_lt' (by norm_num : (0:ℝ) < 1e6)]
    norm_num
  exact ⟨hlt, (C2_gravitational_force_formula bodyNearA bodyNearB).1 hlt⟩

/-- Counterexample for C4: constructing a body with mass `-1` (and well-formed
    2-component position and velocity) does not raise; it succeeds, so the
    claimed mass validation does not exist in the code. -/
theorem C4_counterexample :
    CelestialBody.post_init "X" (-1) [0, 0] [0, 0] 0 "blue" true
      = Except.ok { name := "X", mass := -1, position := toVec3 [0, 0],
                    velocity := toVec3 [0, 0], radius := 0, color := "blue",
                    is_3d := false } := rfl

/-- Claim C4 (amended): the constructor performs no mass validation at all:
    for any non-positive mass, construction with well-formed position/velocity
    dimensionality succeeds and the body stores that mass. -/
theorem C4_no_mass_validation (nm : String) (m : ℝ) (p v : List ℝ) (rad : ℝ)
    (col : String) (f3 : Bool) (hm : m ≤ 0)
    (hp : p.length = 2 ∨ p.length = 3) (hv : v.length = 2 ∨ v.length = 3) :
    Except.map CelestialBody.mass (CelestialBody.post_init nm m p v rad col f3)
      = Except.ok m := by
  rcases hp with hp | hp <;> rcases hv with hv | hv <;>
    simp [CelestialBody.post_init, hp, hv, Except.map]

/-- Witness for C4 (amended) at mass `-1`. -/
theorem C4_witness :
    (-1 : ℝ) ≤ 0 ∧
      Except.map CelestialBody.mass
          (CelestialBody.post_init "X" (-1) [0, 0] [0, 0] 0 "blue" true)
        = Except.ok (-1) :=
  ⟨neg_nonpos.mpr zero_le_one,
    C4_no_mass_validation "X" (-1) [0, 0] [0, 0] 0 "blue" true
      (neg_nonpos.mpr zero_le_one) (Or.inl rfl) (Or.inl rfl)⟩

/-- Counterexample for C9: a 3-component position with a 2-component velocity
    constructs successfully but is tagged `is_3d = true`, not planar as the
    claim requires. -/
theorem C9_counterexample :
    ∃ b, CelestialBody.post_init "X" 1 [0, 0, 0] [0, 0] 0 "blue" true
          = Except.ok b ∧ b.is_3d = true :=
  ⟨_, rfl, rfl⟩

/-- Claim C9 (amended): 2-component inputs are zero-extended, construction
    succeeds exactly when both position and velocity have length 2 or 3, and
    the `is_3d` tag records only whether the *position* was 3-component (the
    velocity's dimensionality and the passed flag are ignored). -/
theorem C9_dimension_handling (nm : String) (m : ℝ) (p v : List ℝ) (rad : ℝ)
    (col : String) (f3 : Bool) :
    ((p.length = 2 ∨ p.length = 3) → (v.length = 2 ∨ v.length = 3) →
      CelestialBody.post_init nm m p v rad col f3
        = Except.ok { name := nm, mass := m, position := toVec3 p,
                      velocity := toVec3 v, radius := rad, color := col,
                      is_3d := decide (p.length = 3) }) ∧
    (p.length = 2 → toVec3 p 2 = 0) ∧ (v.length = 2 → toVec3 v 2 = 0) ∧
    (¬ ((p.length = 2 ∨ p.length = 3) ∧ (v.length = 2 ∨ v.length = 3)) →
      ∃ msg, CelestialBody.post_init nm m p v rad col f3 = Except.error msg) := by
  refine ⟨?_, ?_, ?_, ?_⟩
  · intro hp hv
    rcases hp with hp | hp <;> rcases hv with hv | hv <;>
      simp [CelestialBody.post_init, hp, hv]
  · intro hp
    exact List.getD_eq_default _ _ (by omega)
  · intro hv
    exact List.getD_eq_default _ _ (by omega)
  · intro h
    by_cases hA : p.length = 2 ∨ p.length = 3
    · have hB : ¬ (v.length = 2 ∨ v.length = 3) := fun hb => h ⟨hA, hb⟩
      refine ⟨"Velocity must be 2D [vx,vy] or 3D [vx,vy,vz]", ?_⟩
      rcases hA with hp | hp <;>
        simp [CelestialBody.post_init, hp, hB]
    · have h2 : ¬ p.length = 2 := fun e => hA (Or.inl e)
      have h3 : ¬ p.length = 3 := fun e => hA (Or.inr e)
      refine ⟨"Position must be 2D [x,y] or 3D [x,y,z]", ?_⟩
      simp [CelestialBody.post_init, h2, h3]

/-- Witness for C9 (amended): a 2-component position with a 3-component
    velocity constructs successfully, zero-extended, tagged planar. -/
theorem C9_witness :
    CelestialBody.post_init "W" 1 [1, 2] [3, 4, 5] 0 "green" true
      = Except.ok { name := "W", mass := 1, position := toVec3 [1, 2],
                    velocity := toVec3 [3, 4, 5], radius := 0, color := "green",
                    is_3d := decide (([1, 2] : List ℝ).length = 3) } :=
  (C9_dimension_handling "W" 1 [1, 2] [3, 4, 5] 0 "green" true).1
    (Or.inl rfl) (Or.inr rfl)

/-- Claim C6: for positive masses and pairwise distinct names, one integrator
    step leaves the total linear momentum `Σ mᵢ vᵢ` exactly unchanged. -/
theorem C6_momentum_conserved {n : ℕ} (dt : ℝ) (e : PhysicsEngine n)
    (hm : ∀ i, 0 < (e.bodies i).mass)
    (hname : Function.Injective fun i => (e.bodies i).name) :
    momentum (update_positions_velocities dt e).bodies = momentum e.bodies := by
  unfold momentum
  have step1 : ∀ i : Fin n,
      ((update_positions_velocities dt e).bodies i).mass •
          ((update_positions_velocities dt e).bodies i).velocity
        = (e.bodies i).mass • (e.bodies i).velocity
          + dt • ((2:ℝ)⁻¹ • (calculate_forces e.bodies (e.bodies i)
              + calculate_forces (postDrift dt e.bodies) (postDrift dt e.bodies i))) := by
    intro i
    have h0 : (e.bodies i).mass ≠ 0 := (hm i).ne'
    show (e.bodies i).mass • ((e.bodies i).velocity
        + dt • ((2:ℝ)⁻¹ • (acceleration e.bodies (e.bodies i)
            + acceleration (postDrift dt e.bodies) (postDrift dt e.bodies i)))) = _
    rw [smul_add, smul_comm (e.bodies i).mass dt,
        smul_comm (e.bodies i).mass ((2:ℝ)⁻¹), smul_add,
        mass_smul_acceleration e.bodies (e.bodies i) (e.bodies i).mass rfl h0,
        mass_smul_acceleration (postDrift dt e.bodies) (postDrift dt e.bodies i)
          (e.bodies i).mass rfl h0]
  calc (∑ i, ((update_positions_velocities dt e).bodies i).mass •
          ((update_positions_velocities dt e).bodies i).velocity)
      = ∑ i, ((e.bodies i).mass • (e.bodies i).velocity
          + dt • ((2:ℝ)⁻¹ • (calculate_forces e.bodies (e.bodies i)
              + calculate_forces (postDrift dt e.bodies) (postDrift dt e.bodies i)))) :=
        Finset.sum_congr rfl fun i _ => step1 i
    _ = (∑ i, (e.bodies i).mass • (e.bodies i).velocity)
        + dt • ((2:ℝ)⁻¹ • ((∑ i, calculate_forces e.bodies (e.bodies i))
            + ∑ i, calculate_forces (postDrift dt e.bodies) (postDrift dt e.bodies i))) := by
        rw [Finset.sum_add_distrib, ← Finset.smul_sum, ← Finset.smul_sum,
            Finset.sum_add_distrib]
    _ = ∑ i, (e.bodies i).mass • (e.bodies i).velocity := by
        rw [sum_calculate_forces_eq_zero, sum_calculate_forces_eq_zero]
        simp

/-- Witness for C6: a concrete two-body system with masses 1 and 2 and distinct
    names conserves momentum across one step of size 1. -/
theorem C6_witness :
    (∀ i, 0 < (momEngine.bodies i).mass) ∧
      momentum (update_positions_velocities 1 momEngine).bodies
        = momentum momEngine.bodies := by
  have hm : ∀ i : Fin 2, 0 < (momEngine.bodies i).mass := by
    intro i
    fin_cases i
    · exact one_pos
    · exact two_pos
  have hinj : Function.Injective fun i : Fin 2 => (momEngine.bodies i).name := by
    intro a b hab
    fin_cases a <;> fin_cases b <;> simp_all [momEngine, momA, momB]
  exact ⟨hm, C6_momentum_conserved 1 momEngine hm hinj⟩

/-- Claim C7: one integrator step commutes with any permutation of the body
    collection — stepping the permuted collection yields exactly the permuted
    per-body results, because all accelerations come from one pre-mutation
    snapshot. -/
theorem C7_step_permutation_equivariant {n : ℕ} (σ : Equiv.Perm (Fin n)) (dt : ℝ)
    (e : PhysicsEngine n) :
    update_positions_velocities dt { bodies := fun i => e.bodies (σ i), time := e.time }
      = { bodies := fun i => (update_positions_velocities dt e).bodies (σ i),
          time := (update_positions_velocities dt e).time } := by
  have hdrift : postDrift dt (fun i => e.bodies (σ i))
      = fun i => postDrift dt e.bodies (σ i) :=
    postDrift_comp_perm σ dt e.bodies
  have ha0 : ∀ b, acceleration (fun i => e.bodies (σ i)) b = acceleration e.bodies b :=
    fun b => acceleration_comp_perm σ e.bodies b
  have ha1 : ∀ b, acceleration (fun i => postDrift dt e.bodies (σ i)) b
      = acceleration (postDrift dt e.bodies) b :=
    fun b => acceleration_comp_perm σ (postDrift dt e.bodies) b
  unfold update_positions_velocities
  dsimp only
  simp only [PhysicsEngine.mk.injEq]
  refine ⟨?_, trivial⟩
  funext i
  simp only [hdrift, ha0, ha1]

/-- Claim C8 is violated: the step on a collection containing a zero-mass body
    does not abort; it completes normally and returns a final state (here the
    zero-mass failing input leaves the state unchanged except for the clock —
    the source has no error path in `acceleration`). -/
theorem C8_zero_mass_step_completes :
    update_positions_velocities 1 ⟨zBodies, 0⟩ = ⟨zBodies, 1⟩ := by
  have hcfZ : calculate_forces zBodies zeroMassBody = 0 := by
    unfold calculate_forces
    rw [Fin.sum_univ_two,
        gravitational_force_zero_left zeroMassBody (zBodies 0) rfl,
        gravitational_force_zero_left zeroMassBody (zBodies 1) rfl]
    simp
  have hcfW : calculate_forces zBodies heavyBody = 0 := by
    unfold calculate_forces
    rw [Fin.sum_univ_two,
        gravitational_force_zero_right heavyBody (zBodies 0) rfl,
        if_neg (show ¬ (zBodies 1 ≠ heavyBody) from fun h => h rfl)]
    simp
  have hacc : ∀ i : Fin 2, acceleration zBodies (zBodies i) = 0 := by
    intro i
    fin_cases i
    · show acceleration zBodies zeroMassBody = 0
      unfold acceleration
      rw [hcfZ, smul_zero]
    · show acceleration zBodies heavyBody = 0
      unfold acceleration
      rw [hcfW, smul_zero]
  have hvz : (v3 0 0 0 : Vec3) = 0 := by
    funext k
    fin_cases k <;> rfl
  have hvel : ∀ i : Fin 2, (zBodies i).velocity = 0 := by
    intro i
    fin_cases i
    · exact hvz
    · exact hvz
  have hdrift : postDrift 1 zBodies = zBodies := postDrift_id_of_zero 1 zBodies hacc hvel
  unfold update_positions_velocities
  dsimp only
  rw [hdrift]
  congr 1
  · funext i
    rw [hacc i]
    simp
  · norm_num

/-- Claim C3 is violated for small step counts: with `duration = dt` (one
    intended step), `run_simulation` raises `ZeroDivisionError` from the
    progress check `step % (total_steps // 10)` because `total_steps // 10 == 0`,
    instead of completing. -/
theorem C3_run_simulation_small_k_raises {n : ℕ} (bodies : Fin n → CelestialBody)
    (dt : ℝ) (hdt : 0 < dt) :
    run_simulation (mkSimulator bodies dt) dt
      = Except.error ("ZeroDivisionError: integer modulo by zero") := by
  unfold run_simulation mkSimulator
  dsimp only
  rw [div_self hdt.ne']
  have h1 : pyInt 1 = 1 := by
    unfold pyInt
    rw [if_pos (by norm_num : (0:ℝ) ≤ 1)]
    exact Int.floor_one
  rw [h1]
  rfl

/-- Witness for C3's failing run at `dt = 1`, `duration = 1`. -/
theorem C3_witness :
    (0:ℝ) < 1 ∧
      run_simulation (mkSimulator (fun i : Fin 0 => i.elim0) 1) 1
        = Except.error ("ZeroDivisionError: integer modulo by zero") :=
  ⟨one_pos, C3_run_simulation_small_k_raises (fun i => i.elim0) 1 one_pos⟩

/-- The simulator's `dt` is constant across steps and both clocks advance by
    `dt` each step. -/
lemma sim_iterate_clock {n : ℕ} (bodies : Fin n → CelestialBody) (dt : ℝ) (k : ℕ) :
    (OrbitalSimulator.step^[k] (mkSimulator bodies dt)).dt = dt ∧
    (OrbitalSimulator.step^[k] (mkSimulator bodies dt)).time = k * dt ∧
    (OrbitalSimulator.step^[k] (mkSimulator bodies dt)).engine.time = k * dt := by
  induction k with
  | zero =>
    refine ⟨rfl, ?_, ?_⟩ <;> simp [mkSimulator]
  | succ k ih =>
    obtain ⟨hdt, ht, he⟩ := ih
    rw [Function.iterate_succ_apply']
    refine ⟨hdt, ?_, ?_⟩
    · show (OrbitalSimulator.step^[k] (mkSimulator bodies dt)).time
          + (OrbitalSimulator.step^[k] (mkSimulator bodies dt)).dt = _
      rw [ht, hdt]
      push_cast
      ring
    · show (OrbitalSimulator.step^[k] (mkSimulator bodies dt)).engine.time
          + (OrbitalSimulator.step^[k] (mkSimulator bodies dt)).dt = _
      rw [he, hdt]
      push_cast
      ring

/-- Claim C10: the simulator clock and the engine clock start at 0, advance by
    `dt` together, and after `k` steps both equal `k * dt` exactly. -/
theorem C10_time_cursors_synchronized {n : ℕ} (bodies : Fin n → CelestialBody)
    (dt : ℝ) (k : ℕ) :
    (OrbitalSimulator.step^[k] (mkSimulator bodies dt)).time = k * dt ∧
    (OrbitalSimulator.step^[k] (mkSimulator bodies dt)).engine.time = k * dt :=
  ⟨(sim_iterate_clock bodies dt k).2.1, (sim_iterate_clock bodies dt k).2.2⟩

/-- Counterexample for C5: at exactly `r = 1e6` the potential term is zero
    (the energy loop requires `r > 1e6`) while the force is nonzero (the force
    floor requires `r < 1e6`), so the two floor rules disagree at the boundary. -/
theorem C5_counterexample :
    potentialTerm boundaryA boundaryB = 0 ∧
      gravitational_force boundaryA boundaryB ≠ 0 := by
  have hsubBA : boundaryA.position - boundaryB.position = v3 (-(1e6)) 0 0 := by
    funext i
    fin_cases i <;> simp [boundaryA, boundaryB, v3]
  have hsubAB : boundaryB.position - boundaryA.position = v3 (1e6) 0 0 := by
    funext i
    fin_cases i <;> simp [boundaryA, boundaryB, v3]
  have hnBA : norm3 (boundaryA.position - boundaryB.position) = 1e6 := by
    rw [hsubBA, norm3_v3, show (-(1e6):ℝ) ^ 2 + 0 ^ 2 + 0 ^ 2 = ((1e6):ℝ) ^ 2 by ring]
    exact Real.sqrt_sq (by norm_num)
  have hnAB : norm3 (boundaryB.position - boundaryA.position) = 1e6 := by
    rw [hsubAB, norm3_v3, show ((1e6):ℝ) ^ 2 + 0 ^ 2 + 0 ^ 2 = ((1e6):ℝ) ^ 2 by ring]
    exact Real.sqrt_sq (by norm_num)
  constructor
  · unfold potentialTerm
    rw [hnBA, if_neg (by norm_num : ¬ ((1e6:ℝ) > 1e6))]
  · intro hzero
    have h0 := congrFun hzero 0
    unfold gravitational_force at h0
    rw [hnAB, if_neg (by norm_num : ¬ ((1e6:ℝ) < 1e6)), hsubAB] at h0
    rw [Pi.smul_apply, Pi.smul_apply, v3_apply_zero, Pi.zero_apply] at h0
    rw [show boundaryA.mass = 1 from rfl, show boundaryB.mass = 1 from rfl] at h0
    rw [show G = 6.67430e-11 from rfl] at h0
    norm_num at h0

/-- Claim C5 (amended): away from the boundary distance `1e6` the two floor
    rules agree — the potential term is zero exactly when the force vector is
    zero — and above the floor the potential term is `-G*m*mOther/r`.  (At
    exactly `r = 1e6` they disagree, per the counterexample.) -/
theorem C5_floor_agreement_off_boundary (b1 b2 : CelestialBody)
    (hne : norm3 (b2.position - b1.position) ≠ 1e6) :
    (potentialTerm b1 b2 = 0 ↔ gravitational_force b1 b2 = 0) ∧
    (1e6 < norm3 (b2.position - b1.position) →
      potentialTerm b1 b2
        = -(G * b1.mass * b2.mass / norm3 (b2.position - b1.position))) := by
  have hsym : norm3 (b1.position - b2.position) = norm3 (b2.position - b1.position) :=
    norm3_sub_comm _ _
  rcases hne.lt_or_lt with hlt | hgt
  · constructor
    · unfold potentialTerm gravitational_force
      rw [hsym, if_neg (by linarith : ¬ (norm3 (b2.position - b1.position) > 1e6)),
          if_pos hlt]
      simp
    · intro h
      linarith
  · have hr : norm3 (b2.position - b1.position) ≠ 0 := by
      intro h0
      rw [h0] at hgt
      norm_num at hgt
    have hrv : b2.position - b1.position ≠ 0 := by
      intro h0
      rw [h0, norm3_zero] at hgt
      norm_num at hgt
    constructor
    · unfold potentialTerm gravitational_force
      rw [hsym, if_pos hgt,
          if_neg (by linarith : ¬ (norm3 (b2.position - b1.position) < 1e6))]
      constructor
      · intro h
        rw [neg_eq_zero] at h
        have hnum : G * b1.mass * b2.mass = 0 := by
          rcases div_eq_zero_iff.mp h with h1 | h2
          · exact h1
          · exact absurd h2 hr
        have hc : G * b1.mass * b2.mass / norm3 (b2.position - b1.position) ^ 2 = 0 :=
          div_eq_zero_iff.mpr (Or.inl hnum)
        rw [hc, zero_smul]
      · intro h
        rcases smul_eq_zero.mp h with hc | hv
        · rcases div_eq_zero_iff.mp hc with hnum | hden
          · rw [hnum, zero_div, neg_zero]
          · exact absurd hden (pow_ne_zero 2 hr)
        · rcases smul_eq_zero.mp hv with hinv | hv0
          · exact absurd hinv (inv_ne_zero hr)
          · exact absurd hv0 hrv
    · intro _
      unfold potentialTerm
      rw [hsym, if_pos hgt]

/-- Witness for C5 (amended) at distance `2e6` m, away from the boundary. -/
theorem C5_witness :
    norm3 (farB.position - farA.position) ≠ 1e6 ∧
      ((potentialTerm farA farB = 0 ↔ gravitational_force farA farB = 0) ∧
        (1e6 < norm3 (farB.position - farA.position) →
          potentialTerm farA farB
            = -(G * farA.mass * farB.mass / norm3 (farB.position - farA.position)))) := by
  have hsub : farB.position - farA.position = v3 (2e6) 0 0 := by
    funext i
    fin_cases i <;> simp [farA, farB, v3]
  have hn : norm3 (farB.position - farA.position) = 2e6 := by
    rw [hsub, norm3_v3, show ((2e6):ℝ) ^ 2 + 0 ^ 2 + 0 ^ 2 = ((2e6):ℝ) ^ 2 by ring]
    exact Real.sqrt_sq (by norm_num)
  have hne : norm3 (farB.position - farA.position) ≠ 1e6 := by
    rw [hn]
    norm_num
  exact ⟨hne, C5_floor_agreement_off_boundary farA farB hne⟩

end Solar
